import Mathlib

/-!
Verification development for the ZKP-kyc backend service.

The embedding covers the three pieces of the core described in the spec:
the age-eligibility gate (KycService.isUserAdult, kyc.service.ts lines 98-107),
the document-verification pipeline (KycService.docVerify, lines 109-169) with
its HTTP-controller entry point (KycController.docVerify in kyc.controller),
and the record lookup (KycService.findDoc, lines 172-182).

External effects (file system reads, the vendor HTTP call, the database
insert, the fresh random handle, the process environment) are passed in
explicitly through an Env record; the database is threaded as an explicit
list of records; unlink calls and the payload handed to the vendor client
are recorded in the output so cleanup and request-shape properties can be
stated.  JavaScript semantics that matter to the claims are embedded
faithfully: NaN arithmetic for Invalid Date components, string truthiness
for the documentBack guard, and the undefined-propagating member access
for res.data.age[0].value.
-/

namespace ZkpKyc

/-! ## JavaScript numbers for date arithmetic

new Date(s) on an unparseable string yields an Invalid Date whose
getFullYear/getMonth/getDate all return NaN; any arithmetic on NaN gives
NaN and every comparison with NaN is false.  JSNum embeds exactly the
operations isUserAdult performs. -/

inductive JSNum where
  | nan : JSNum
  | num : Int → JSNum
deriving DecidableEq

/-- JavaScript subtraction: NaN is absorbing. -/
def JSNum.sub : JSNum → JSNum → JSNum
  | .num a, .num b => .num (a - b)
  | _, _ => .nan

/-- JavaScript strict less-than: false whenever either side is NaN. -/
def JSNum.ltb : JSNum → JSNum → Bool
  | .num a, .num b => decide (a < b)
  | _, _ => false

/-- JavaScript greater-or-equal: false whenever either side is NaN. -/
def JSNum.geb : JSNum → JSNum → Bool
  | .num a, .num b => decide (b ≤ a)
  | _, _ => false

/-- JavaScript strict equality on numbers: NaN === x is always false. -/
def JSNum.eqb : JSNum → JSNum → Bool
  | .num a, .num b => decide (a = b)
  | _, _ => false

/-- The year/month/day components a Date object exposes through
getFullYear/getMonth/getDate.  A valid date has numeric components; an
Invalid Date has NaN in all three. -/
structure JSDate where
  year : JSNum
  month : JSNum
  day : JSNum
deriving DecidableEq

/-- The Invalid Date produced by new Date on an unparseable string:
every component getter returns NaN. -/
def invalidDate : JSDate := ⟨.nan, .nan, .nan⟩

/-- A valid date with the given getFullYear/getMonth/getDate values. -/
def mkDate (y m d : Int) : JSDate := ⟨.num y, .num m, .num d⟩

/-- new Date(dateOfBirth): a parseable string yields its components, an
unparseable one yields the Invalid Date (all getters NaN). -/
def parseDate : Option (Int × Int × Int) → JSDate
  | some (y, m, d) => mkDate y m d
  | none => invalidDate

/-- KycService.isUserAdult (kyc.service.ts lines 98-107):
age = today.getFullYear() - birthDate.getFullYear();
monthDiff = today.getMonth() - birthDate.getMonth();
if (monthDiff < 0 or (monthDiff === 0 and today.getDate() < birthDate.getDate()))
  return age - 1 >= 18;  else return age >= 18. -/
def isUserAdult (birthDate today : JSDate) : Bool :=
  let age := today.year.sub birthDate.year
  let monthDiff := today.month.sub birthDate.month
  if monthDiff.ltb (.num 0) || (monthDiff.eqb (.num 0) && today.day.ltb birthDate.day) then
    (age.sub (.num 1)).geb (.num 18)
  else
    age.geb (.num 18)

/-- Calendar age as the spec words it: the whole-year difference, minus one
when the reference date's month/day position within the year precedes the
birth date's month/day position (birthday not yet occurred this year). -/
def calendarAge (byr bmo bdy tyr tmo tdy : Int) : Int :=
  (tyr - byr) - (if tmo < bmo ∨ (tmo = bmo ∧ tdy < bdy) then 1 else 0)

/-! ## The document-verification pipeline -/

/-- An uploaded Multer file handle; only its path on ephemeral storage is
used by the pipeline. -/
structure MFile where
  path : String
deriving DecidableEq

/-- One entry of the age claim array in the vendor response; the value key
may be absent (JS: accessing it then yields undefined). -/
structure AgeEntry where
  value? : Option Int
deriving DecidableEq

/-- The data object of the vendor response body; the age array may be
absent. -/
structure RespData where
  age? : Option (List AgeEntry)
deriving DecidableEq

/-- The parsed vendor response body (axios response.data); the data object
may be absent. -/
structure VendorBody where
  data? : Option RespData
deriving DecidableEq

/-- The member access res.data.age[0].value with JavaScript semantics:
reading a property of undefined throws a TypeError (the .error case), but
a present age[0] whose value key is absent yields undefined without
throwing (the .ok none case). -/
def extractAge (b : VendorBody) : Except Unit (Option Int) :=
  match b.data? with
  | none => .error ()
  | some d =>
    match d.age? with
    | none => .error ()
    | some l =>
      match l.head? with
      | none => .error ()
      | some e => .ok e.value?

/-- The JSON payload sent to the quickscan endpoint: the document key
always, the documentBack key only when set. -/
structure Payload where
  document : String
  documentBack : Option String
deriving DecidableEq

/-- Payload construction (kyc.service.ts lines 117-123): documentBack is
attached only when the truthiness guard if (documentBackBase64) passes,
i.e. only when the string is non-empty. -/
def buildPayload (documentBase64 documentBackBase64 : String) : Payload :=
  { document := documentBase64,
    documentBack := if documentBackBase64 ≠ "" then some documentBackBase64 else none }

/-- A persisted verification record: prisma.kyc.create stores age and
hash. -/
structure KycRecord where
  age : Int
  hash : String
deriving DecidableEq

/-- The explicit environment for one docVerify invocation: file-system
reads, the vendor call, whether the single database insert succeeds (and
the error it raises if not), the process.env.ENV base URL, and the hex
handle crypto.randomBytes(20) produces in this invocation. -/
structure Env where
  readFile : String → Except String String
  vendor : Payload → Except String VendorBody
  createOk : Bool
  createErr : String
  envVar : String
  randomHex : String

/-- The observable outcome of docVerify: the structured success object,
the plain ineligibility string, the generic error thrown from the catch
block, or an error that escapes without passing through try/catch/finally
(a readFileSync failure on lines 110-114, which precede the try block). -/
inductive DocVerifyResult where
  | success (age : Int) (hash : String) (userImage : String)
  | ineligible (msg : String)
  | failure (msg : String)
  | uncaught (msg : String)
deriving DecidableEq

/-- Everything observable about one docVerify invocation: the returned or
thrown result, the unlink calls issued in order, the payload handed to
axios (none when a read error prevented the call), the insert calls
issued, and the database contents afterwards. -/
structure DocVerifyOut where
  result : DocVerifyResult
  unlinked : List String
  sent : Option Payload
  inserts : List KycRecord
  store : List KycRecord
deriving DecidableEq

/-- The try block (kyc.service.ts lines 136-158): call the vendor, read
res.data.age[0].value, branch on age >= 19, insert on the eligible branch.
Returns the outcome (ok = returned value, error = exception reaching the
catch), the insert calls issued, and the updated store. -/
def tryBody (env : Env) (store : List KycRecord) (payload : Payload) :
    Except String DocVerifyResult × List KycRecord × List KycRecord :=
  match env.vendor payload with
  | .error e => (.error e, [], store)
  | .ok body =>
    match extractAge body with
    | .error _ => (.error "TypeError: cannot read properties of undefined", [], store)
    | .ok none =>
      (.ok (.ineligible "User Not Eligible, Age restricted !!!"), [], store)
    | .ok (some age) =>
      if 19 ≤ age then
        let newRec : KycRecord := ⟨age, env.randomHex⟩
        if env.createOk then
          (.ok (.success age env.randomHex (env.envVar ++ "/user-image.jpg")),
            [newRec], store ++ [newRec])
        else
          (.error env.createErr, [newRec], store)
      else
        (.ok (.ineligible "User Not Eligible, Age restricted !!!"), [], store)

/-- The unlink calls the finally block issues (lines 162-168):
document.path always, documentBack.path when a back file was supplied. -/
def unlinkList (document : MFile) (documentBack : Option MFile) : List String :=
  document.path :: (match documentBack with | some b => [b.path] | none => [])

/-- The optional second readFileSync (lines 113-115): read the back file
when supplied, otherwise keep the initial empty string. -/
def readBack (env : Env) (documentBack : Option MFile) : Except String String :=
  match documentBack with
  | some b => env.readFile b.path
  | none => .ok ""

/-- KycService.docVerify (kyc.service.ts lines 109-169).  The two
readFileSync calls on lines 110-114 run before the try block: a failure
there escapes uncaught and the finally cleanup never runs.  Otherwise the
payload is built, the try block runs, any exception from it is replaced in
the catch block by the generic Error with message Verification failed, and
the finally block unlinks the uploaded files on every one of those
paths. -/
def docVerify (env : Env) (store : List KycRecord)
    (document : MFile) (documentBack : Option MFile) : DocVerifyOut :=
  match env.readFile document.path with
  | .error e => ⟨.uncaught e, [], none, [], store⟩
  | .ok documentBase64 =>
    match readBack env documentBack with
    | .error e => ⟨.uncaught e, [], none, [], store⟩
    | .ok documentBackBase64 =>
      match tryBody env store (buildPayload documentBase64 documentBackBase64) with
      | (.ok r, inserts, store2) =>
        ⟨r, unlinkList document documentBack,
          some (buildPayload documentBase64 documentBackBase64), inserts, store2⟩
      | (.error _, inserts, store2) =>
        ⟨.failure "Verification failed", unlinkList document documentBack,
          some (buildPayload documentBase64 documentBackBase64), inserts, store2⟩

/-- KycController.docVerify: throws unless exactly two files were
uploaded, then calls the service with the first as document and the second
as documentBack. -/
def controllerDocVerify (env : Env) (store : List KycRecord)
    (files : List MFile) : Except String DocVerifyOut :=
  match files with
  | [f1, f2] => .ok (docVerify env store f1 (some f2))
  | _ => .error "Two files are required: front and back of the document."

/-! ## Record lookup -/

/-- prisma.kyc.findMany with a where clause on hash: every stored record
whose hash matches. -/
def kycFindMany (store : List KycRecord) (h : String) : List KycRecord :=
  store.filter (fun r => r.hash == h)

/-- The value findDoc returns: the object spread of the query result (its
records, in order) together with the single shared user_image field. -/
structure FindDocOut where
  records : List KycRecord
  user_image : String
deriving DecidableEq

/-- KycService.findDoc (kyc.service.ts lines 172-182): query all records
matching data.hash and return them with the derived user_image URL
attached; no existence check, no error on an empty result. -/
def findDoc (env : Env) (store : List KycRecord) (h : String) : FindDocOut :=
  ⟨kycFindMany store h, env.envVar ++ "/user-image.jpg"⟩

/-! ## Concrete fixtures used by witnesses and counterexamples -/

/-- A vendor body carrying a single age claim with the given value. -/
def okBody (v : Int) : VendorBody := ⟨some ⟨some [⟨some v⟩]⟩⟩

/-- A vendor body whose age array holds one entry that lacks the value
key. -/
def noValueBody : VendorBody := ⟨some ⟨some [⟨none⟩]⟩⟩

/-- A vendor body with no data object at all. -/
def noDataBody : VendorBody := ⟨none⟩

/-- The front file fixture; sampleEnv can read it. -/
def docF : MFile := ⟨"up/front.jpg"⟩

/-- The back file fixture; sampleEnv can read it. -/
def backF : MFile := ⟨"up/back.jpg"⟩

/-- A zero-byte back file fixture; sampleEnv reads it as the empty base64
string. -/
def emptyF : MFile := ⟨"up/empty.jpg"⟩

/-- A missing file fixture; sampleEnv fails to read it. -/
def badF : MFile := ⟨"up/missing.jpg"⟩

/-- A concrete environment: front and back files readable (the back one at
up/empty.jpg is empty), any other path fails with ENOENT, the vendor call
gives the supplied outcome, the insert succeeds iff ok. -/
def sampleEnv (body : Except String VendorBody) (ok : Bool) : Env :=
  { readFile := fun p =>
      if p = "up/front.jpg" then .ok "QUJD"
      else if p = "up/back.jpg" then .ok "RUZH"
      else if p = "up/empty.jpg" then .ok ""
      else .error "ENOENT: no such file",
    vendor := fun _ => body,
    createOk := ok,
    createErr := "PrismaClientKnownRequestError",
    envVar := "https://cdn.example",
    randomHex := "a1b2c3" }

/-- A record fixture for lookup tests. -/
def recA : KycRecord := ⟨21, "a1b2c3"⟩

/-- A second record fixture with a different hash. -/
def recB : KycRecord := ⟨25, "ffee99"⟩

end ZkpKyc

namespace ZkpKyc

/-! ## Claims -/

/-- Claim C6: for all birth dates and reference dates, isUserAdult returns
true iff the calendar age — the whole-year difference, minus one when the
reference date's month/day position precedes the birth date's — is at
least 18, with the threshold inclusive: a birthday falling on the
reference date itself counts (May 15 2000 birth is adult on May 15 2018),
a birthday one day later does not (May 16 2000 birth is not adult on
May 15 2018). -/
theorem isUserAdult_iff_calendarAge :
    (∀ byr bmo bdy tyr tmo tdy : Int,
        isUserAdult (mkDate byr bmo bdy) (mkDate tyr tmo tdy) = true ↔
          18 ≤ calendarAge byr bmo bdy tyr tmo tdy) ∧
    isUserAdult (mkDate 2000 4 15) (mkDate 2018 4 15) = true ∧
    isUserAdult (mkDate 2000 4 16) (mkDate 2018 4 15) = false := by
  refine ⟨?_, by decide, by decide⟩
  intro byr bmo bdy tyr tmo tdy
  simp only [isUserAdult, mkDate, calendarAge, JSNum.sub, JSNum.ltb, JSNum.eqb, JSNum.geb]
  split
  · rename_i hguard
    simp only [Bool.or_eq_true, Bool.and_eq_true, decide_eq_true_eq] at hguard
    have hcond : tmo < bmo ∨ (tmo = bmo ∧ tdy < bdy) := by omega
    simp only [if_pos hcond, decide_eq_true_eq]
  · rename_i hguard
    simp only [Bool.or_eq_true, Bool.and_eq_true, decide_eq_true_eq, not_or,
      not_and] at hguard
    have hcond : ¬(tmo < bmo ∨ (tmo = bmo ∧ tdy < bdy)) := by omega
    simp only [if_neg hcond, decide_eq_true_eq]
    omega

/-- Claim C10: on an unparseable birth-date string, new Date yields an
Invalid Date whose NaN components make both branch comparisons false, so
isUserAdult returns false for every reference date rather than
throwing. -/
theorem isUserAdult_unparseable_false (today : JSDate) :
    isUserAdult (parseDate none) today = false := by
  obtain ⟨y, m, d⟩ := today
  cases y <;> cases m <;> cases d <;> rfl

/-- Witness for C6 at a concrete pair of dates: the equivalence holds for
a birth date of Jan 1 1990 against a reference date of Jul 15 2020. -/
theorem isUserAdult_iff_calendarAge_witness :
    (isUserAdult (mkDate 1990 0 1) (mkDate 2020 6 15) = true ↔
      18 ≤ calendarAge 1990 0 1 2020 6 15) :=
  isUserAdult_iff_calendarAge.1 1990 0 1 2020 6 15

/-- Witness for C10 at a concrete reference date. -/
theorem isUserAdult_unparseable_false_witness :
    isUserAdult (parseDate none) (mkDate 2026 9 11) = false :=
  isUserAdult_unparseable_false (mkDate 2026 9 11)

/-- Claim C8: findDoc returns exactly the stored records whose hash
matches the requested handle, as a collection augmented with the single
shared derived user-image URL; zero matches give the empty collection
(still a value, not an error), and a unique match gives that record with
the URL field attached. -/
theorem findDoc_filter_spec (env : Env) (store : List KycRecord) (h : String) :
    (findDoc env store h).records = store.filter (fun r => r.hash == h) ∧
    (findDoc env store h).user_image = env.envVar ++ "/user-image.jpg" ∧
    (store.filter (fun r => r.hash == h) = [] → (findDoc env store h).records = []) ∧
    (∀ r, store.filter (fun r2 => r2.hash == h) = [r] → (findDoc env store h).records = [r]) := by
  refine ⟨rfl, rfl, ?_, ?_⟩
  · intro hempty
    simp only [findDoc, kycFindMany, hempty]
  · intro r hone
    simp only [findDoc, kycFindMany, hone]

/-- Witness for C8 at a concrete store: the handle a1b2c3 matches exactly
recA, the handle 000000 matches nothing. -/
theorem findDoc_filter_spec_witness :
    (findDoc (sampleEnv (.ok (okBody 19)) true) [recA, recB] "a1b2c3").records = [recA] ∧
    (findDoc (sampleEnv (.ok (okBody 19)) true) [recA, recB] "000000").records = [] := by
  constructor
  · exact (findDoc_filter_spec (sampleEnv (.ok (okBody 19)) true) [recA, recB]
      "a1b2c3").2.2.2 recA (by decide)
  · exact (findDoc_filter_spec (sampleEnv (.ok (okBody 19)) true) [recA, recB]
      "000000").2.2.1 (by decide)

/-! ## Shared unfolding lemmas for docVerify -/

/-- When both reads succeed, docVerify is the try/catch/finally around
tryBody on the payload built from the two base64 strings. -/
theorem docVerify_reads_ok (env : Env) (store : List KycRecord)
    (document : MFile) (documentBack : Option MFile) (b64 bb64 : String)
    (hread : env.readFile document.path = .ok b64)
    (hback : readBack env documentBack = .ok bb64) :
    docVerify env store document documentBack =
      match tryBody env store (buildPayload b64 bb64) with
      | (.ok r, inserts, store2) =>
        ⟨r, unlinkList document documentBack, some (buildPayload b64 bb64), inserts, store2⟩
      | (.error _, inserts, store2) =>
        ⟨.failure "Verification failed", unlinkList document documentBack,
          some (buildPayload b64 bb64), inserts, store2⟩ := by
  unfold docVerify
  rw [hread, hback]

/-- tryBody when the vendor call succeeds and the age access yields a
present value: branch on the 19 threshold and on the insert outcome. -/
theorem tryBody_ok_some (env : Env) (store : List KycRecord) (payload : Payload)
    (body : VendorBody) (age : Int)
    (hvendor : env.vendor payload = .ok body)
    (hage : extractAge body = .ok (some age)) :
    tryBody env store payload =
      if 19 ≤ age then
        if env.createOk then
          ((.ok (.success age env.randomHex (env.envVar ++ "/user-image.jpg")) :
              Except String DocVerifyResult),
            [(⟨age, env.randomHex⟩ : KycRecord)], store ++ [⟨age, env.randomHex⟩])
        else (.error env.createErr, [(⟨age, env.randomHex⟩ : KycRecord)], store)
      else ((.ok (.ineligible "User Not Eligible, Age restricted !!!") :
              Except String DocVerifyResult), [], store) := by
  unfold tryBody
  simp only [hvendor, hage]

/-- Whenever both reads succeed, the vendor call is made with the payload
built from the two base64 strings and the finally block unlinks the
supplied files, whatever tryBody does. -/
theorem docVerify_sent_unlinked (env : Env) (store : List KycRecord)
    (document : MFile) (documentBack : Option MFile) (b64 bb64 : String)
    (hread : env.readFile document.path = .ok b64)
    (hback : readBack env documentBack = .ok bb64) :
    (docVerify env store document documentBack).sent = some (buildPayload b64 bb64) ∧
    (docVerify env store document documentBack).unlinked = unlinkList document documentBack := by
  rw [docVerify_reads_ok env store document documentBack b64 bb64 hread hback]
  cases htb : tryBody env store (buildPayload b64 bb64) with
  | mk out rest =>
    cases rest with
    | mk i s => cases out <;> exact ⟨rfl, rfl⟩

/-- Claim C1: when the reads succeed and the vendor response carries an
extracted age value, an age of at least 19 (with the insert succeeding)
returns the success payload holding that age, the freshly drawn random
handle, and the user-image URL formatted from the environment-configured
base URL with the fixed filename; an age below 19 returns the plain
ineligibility message, which is neither a success payload nor a thrown
error. -/
theorem docVerify_eligibility (env : Env) (store : List KycRecord)
    (document : MFile) (documentBack : Option MFile) (b64 bb64 : String)
    (body : VendorBody) (age : Int)
    (hread : env.readFile document.path = .ok b64)
    (hback : readBack env documentBack = .ok bb64)
    (hvendor : env.vendor (buildPayload b64 bb64) = .ok body)
    (hage : extractAge body = .ok (some age)) :
    (19 ≤ age → env.createOk = true →
      (docVerify env store document documentBack).result =
        .success age env.randomHex (env.envVar ++ "/user-image.jpg")) ∧
    (age < 19 →
      (docVerify env store document documentBack).result =
        .ineligible "User Not Eligible, Age restricted !!!" ∧
      (∀ a hx u, (docVerify env store document documentBack).result ≠ .success a hx u) ∧
      (∀ m, (docVerify env store document documentBack).result ≠ .failure m) ∧
      (∀ m, (docVerify env store document documentBack).result ≠ .uncaught m)) := by
  rw [docVerify_reads_ok env store document documentBack b64 bb64 hread hback,
    tryBody_ok_some env store (buildPayload b64 bb64) body age hvendor hage]
  constructor
  · intro h19 hok
    rw [if_pos h19, if_pos hok]
  · intro hlt
    rw [if_neg (show ¬ (19 : Int) ≤ age by omega)]
    refine ⟨rfl, ?_, ?_, ?_⟩
    · intro a hx u h
      cases h
    · intro m h
      cases h
    · intro m h
      cases h

/-- Witness for C1: age value 19 gives the success payload, age value 18
gives the ineligibility message. -/
theorem docVerify_eligibility_witness :
    (docVerify (sampleEnv (.ok (okBody 19)) true) [] docF (some backF)).result =
      .success 19 "a1b2c3" ("https://cdn.example" ++ "/user-image.jpg") ∧
    (docVerify (sampleEnv (.ok (okBody 18)) true) [] docF (some backF)).result =
      .ineligible "User Not Eligible, Age restricted !!!" := by
  constructor
  · exact (docVerify_eligibility (sampleEnv (.ok (okBody 19)) true) [] docF (some backF)
      "QUJD" "RUZH" (okBody 19) 19 rfl rfl rfl rfl).1 (by omega) rfl
  · exact ((docVerify_eligibility (sampleEnv (.ok (okBody 18)) true) [] docF (some backF)
      "QUJD" "RUZH" (okBody 18) 18 rfl rfl rfl rfl).2 (by omega)).1

/-- Claim C2: with an extracted age value available, exactly one insert of
the age and the freshly drawn handle is issued when the age is at least
19 and none otherwise; the store afterwards is the old store with at most
that one record appended (never an update of an existing record), and
every record of the new store is either an old one or carries an age of at
least 19 and the fresh handle. -/
theorem docVerify_persist_iff (env : Env) (store : List KycRecord)
    (document : MFile) (documentBack : Option MFile) (b64 bb64 : String)
    (body : VendorBody) (age : Int)
    (hread : env.readFile document.path = .ok b64)
    (hback : readBack env documentBack = .ok bb64)
    (hvendor : env.vendor (buildPayload b64 bb64) = .ok body)
    (hage : extractAge body = .ok (some age)) :
    (docVerify env store document documentBack).inserts =
      (if 19 ≤ age then [(⟨age, env.randomHex⟩ : KycRecord)] else []) ∧
    (docVerify env store document documentBack).store =
      (if 19 ≤ age then
        (if env.createOk then store ++ [(⟨age, env.randomHex⟩ : KycRecord)] else store)
       else store) ∧
    (∀ r ∈ (docVerify env store document documentBack).store,
      r ∈ store ∨ (19 ≤ r.age ∧ r.hash = env.randomHex)) := by
  rw [docVerify_reads_ok env store document documentBack b64 bb64 hread hback,
    tryBody_ok_some env store (buildPayload b64 bb64) body age hvendor hage]
  by_cases h19 : 19 ≤ age
  · by_cases hok : env.createOk = true
    · simp only [if_pos h19, if_pos hok]
      refine ⟨trivial, trivial, ?_⟩
      intro r hr
      rcases List.mem_append.mp hr with hpre | hnew
      · exact Or.inl hpre
      · rw [List.mem_singleton.mp hnew]
        exact Or.inr ⟨h19, rfl⟩
    · simp only [if_pos h19, if_neg hok]
      exact ⟨trivial, trivial, fun r hr => Or.inl hr⟩
  · simp only [if_neg h19]
    exact ⟨trivial, trivial, fun r hr => Or.inl hr⟩

/-- Witness for C2: a response with age value 21 against a store holding
one record appends exactly the new record. -/
theorem docVerify_persist_iff_witness :
    (docVerify (sampleEnv (.ok (okBody 21)) true) [recB] docF none).inserts =
      [(⟨21, "a1b2c3"⟩ : KycRecord)] ∧
    (docVerify (sampleEnv (.ok (okBody 21)) true) [recB] docF none).store =
      [recB, ⟨21, "a1b2c3"⟩] := by
  have h := docVerify_persist_iff (sampleEnv (.ok (okBody 21)) true) [recB] docF none
    "QUJD" "" (okBody 21) 21 rfl rfl rfl rfl
  refine ⟨?_, ?_⟩
  · rw [h.1]; decide
  · rw [h.2.1]; decide

/-- Claim C3: on each of the four enumerated exit paths — success payload,
ineligibility message, and the caught failures (upstream or storage), both
surfaced as the generic thrown error — the finally block has unlinked the
required document's file, and the back document's file when one was
supplied, exactly once each. -/
theorem docVerify_cleanup (env : Env) (store : List KycRecord)
    (document : MFile) (documentBack : Option MFile)
    (h : (∃ a hx u, (docVerify env store document documentBack).result = .success a hx u) ∨
         (∃ m, (docVerify env store document documentBack).result = .ineligible m) ∨
         (∃ m, (docVerify env store document documentBack).result = .failure m)) :
    (docVerify env store document documentBack).unlinked = unlinkList document documentBack ∧
    (documentBack = none →
      (docVerify env store document documentBack).unlinked = [document.path]) ∧
    (∀ b, documentBack = some b → b.path ≠ document.path →
      ((docVerify env store document documentBack).unlinked.count document.path = 1 ∧
       (docVerify env store document documentBack).unlinked.count b.path = 1)) := by
  cases hrd : env.readFile document.path with
  | error e =>
    exfalso
    have hres : (docVerify env store document documentBack).result = .uncaught e := by
      unfold docVerify; rw [hrd]
    rcases h with ⟨a, hx, u, hh⟩ | ⟨m, hh⟩ | ⟨m, hh⟩ <;> rw [hres] at hh <;> cases hh
  | ok b64 =>
    cases hbk : readBack env documentBack with
    | error e =>
      exfalso
      have hres : (docVerify env store document documentBack).result = .uncaught e := by
        unfold docVerify; rw [hrd, hbk]
      rcases h with ⟨a, hx, u, hh⟩ | ⟨m, hh⟩ | ⟨m, hh⟩ <;> rw [hres] at hh <;> cases hh
    | ok bb64 =>
      have key := (docVerify_sent_unlinked env store document documentBack b64 bb64 hrd hbk).2
      refine ⟨key, ?_, ?_⟩
      · intro hnone
        rw [key, hnone]
        rfl
      · intro b hsome hne
        rw [key, hsome]
        unfold unlinkList
        constructor
        · simp [List.count_cons, List.count_nil, Ne.symm hne]
        · simp [List.count_cons, List.count_nil, hne]

/-- Witness for C3: a successful run with front and back files unlinks the
front path and the back path once each. -/
theorem docVerify_cleanup_witness :
    (docVerify (sampleEnv (.ok (okBody 19)) true) [] docF (some backF)).unlinked =
      unlinkList docF (some backF) ∧
    (docVerify (sampleEnv (.ok (okBody 19)) true) [] docF (some backF)).unlinked.count
      "up/front.jpg" = 1 ∧
    (docVerify (sampleEnv (.ok (okBody 19)) true) [] docF (some backF)).unlinked.count
      "up/back.jpg" = 1 := by
  have h := docVerify_cleanup (sampleEnv (.ok (okBody 19)) true) [] docF (some backF)
    (Or.inl ⟨19, "a1b2c3", "https://cdn.example" ++ "/user-image.jpg", by decide⟩)
  exact ⟨h.1, (h.2.2 backF rfl (by decide)).1, (h.2.2 backF rfl (by decide)).2⟩

/-- Counterexample to C4 as stated: a step-1 file read error is not
caught.  The readFileSync call runs before the try block, so with an
unreadable document path the raw ENOENT error escapes instead of the
generic Verification failed error, and the finally cleanup never runs. -/
theorem docVerify_readError_uncaught_cex :
    (docVerify (sampleEnv (.ok (okBody 19)) true) [] badF none).result =
      .uncaught "ENOENT: no such file" ∧
    (docVerify (sampleEnv (.ok (okBody 19)) true) [] badF none).result ≠
      .failure "Verification failed" ∧
    (docVerify (sampleEnv (.ok (okBody 19)) true) [] badF none).unlinked = [] := by
  decide

/-- Claim C4, amended: every failure arising inside the try block — a
vendor-call failure (network error or non-2xx), a malformed response body
(the age access throwing), or a storage failure on the insert — is caught
and re-raised as the single generic error with message Verification
failed, whose payload carries none of the original cause detail; a step-1
file read error, however, occurs before the try block and the raw error
propagates unchanged with no cleanup. -/
theorem docVerify_failure_collapse (env : Env) (store : List KycRecord)
    (document : MFile) (documentBack : Option MFile) (b64 bb64 : String)
    (hread : env.readFile document.path = .ok b64)
    (hback : readBack env documentBack = .ok bb64) :
    (∀ e, env.vendor (buildPayload b64 bb64) = .error e →
      (docVerify env store document documentBack).result = .failure "Verification failed") ∧
    (∀ body, env.vendor (buildPayload b64 bb64) = .ok body →
      extractAge body = .error () →
      (docVerify env store document documentBack).result = .failure "Verification failed") ∧
    (∀ body age, env.vendor (buildPayload b64 bb64) = .ok body →
      extractAge body = .ok (some age) → 19 ≤ age → env.createOk = false →
      (docVerify env store document documentBack).result = .failure "Verification failed") ∧
    (∀ env2 store2 doc2 back2 e, Env.readFile env2 (MFile.path doc2) = Except.error e →
      (docVerify env2 store2 doc2 back2).result = DocVerifyResult.uncaught e ∧
      (docVerify env2 store2 doc2 back2).unlinked = []) := by
  refine ⟨?_, ?_, ?_, ?_⟩
  · intro e hv
    rw [docVerify_reads_ok env store document documentBack b64 bb64 hread hback]
    unfold tryBody
    rw [hv]
  · intro body hv hax
    rw [docVerify_reads_ok env store document documentBack b64 bb64 hread hback]
    unfold tryBody
    simp only [hv, hax]
  · intro body age hv hax h19 hok
    rw [docVerify_reads_ok env store document documentBack b64 bb64 hread hback,
      tryBody_ok_some env store (buildPayload b64 bb64) body age hv hax]
    rw [if_pos h19, if_neg (by simp [hok])]
  · intro env2 store2 doc2 back2 e hrd
    constructor <;> (unfold docVerify; rw [hrd])

/-- Witness for C4 (amended): a vendor network failure surfaces as the
generic error, and an unreadable document path surfaces as the raw
uncaught read error. -/
theorem docVerify_failure_collapse_witness :
    (docVerify (sampleEnv (.error "ECONNREFUSED") true) [] docF none).result =
      .failure "Verification failed" ∧
    (docVerify (sampleEnv (.ok (okBody 19)) true) [] badF none).result =
      .uncaught "ENOENT: no such file" := by
  have h := docVerify_failure_collapse (sampleEnv (.error "ECONNREFUSED") true) [] docF none
    "QUJD" "" rfl rfl
  refine ⟨h.1 "ECONNREFUSED" rfl, ?_⟩
  exact (h.2.2.2 (sampleEnv (.ok (okBody 19)) true) [] badF none
    "ENOENT: no such file" rfl).1

/-- Counterexample to C5 as stated: a response whose first age entry
exists but lacks the value key does not surface the generic error.  The
undefined value fails the age comparison and docVerify returns the plain
ineligibility message instead. -/
theorem docVerify_missing_value_cex :
    (docVerify (sampleEnv (.ok noValueBody) true) [] docF none).result =
      .ineligible "User Not Eligible, Age restricted !!!" ∧
    (docVerify (sampleEnv (.ok noValueBody) true) [] docF none).result ≠
      .failure "Verification failed" := by
  decide

/-- Claim C5, amended: when the surrounding structure of the age field is
missing — the response lacks the data object, the data object lacks the
age array, or the age array is empty — the member access throws, the
catch block converts the crash, and docVerify surfaces the generic
Verification failed error; when the first age entry exists but lacks the
value key, the undefined value fails the threshold comparison and
docVerify returns the ineligibility message, not an error. -/
theorem docVerify_missing_age_error (env : Env) (store : List KycRecord)
    (document : MFile) (documentBack : Option MFile) (b64 bb64 : String)
    (body : VendorBody)
    (hread : env.readFile document.path = .ok b64)
    (hback : readBack env documentBack = .ok bb64)
    (hvendor : env.vendor (buildPayload b64 bb64) = .ok body) :
    (extractAge body = .error () →
      (docVerify env store document documentBack).result = .failure "Verification failed") ∧
    (extractAge body = .ok none →
      (docVerify env store document documentBack).result =
        .ineligible "User Not Eligible, Age restricted !!!") ∧
    (extractAge body = .error () ↔
      body.data? = none ∨ (∃ d, body.data? = some d ∧ d.age? = none) ∨
      (∃ d, body.data? = some d ∧ d.age? = some [])) := by
  refine ⟨?_, ?_, ?_⟩
  · intro hax
    rw [docVerify_reads_ok env store document documentBack b64 bb64 hread hback]
    unfold tryBody
    simp only [hvendor, hax]
  · intro hax
    rw [docVerify_reads_ok env store document documentBack b64 bb64 hread hback]
    unfold tryBody
    simp only [hvendor, hax]
  · obtain ⟨dq⟩ := body
    cases dq with
    | none => simp [extractAge]
    | some d =>
      obtain ⟨aq⟩ := d
      cases aq with
      | none => simp [extractAge]
      | some l => cases l <;> simp [extractAge]

/-- Witness for C5 (amended): a response with no data object gives the
generic error, a response whose only age entry lacks the value key gives
the ineligibility message. -/
theorem docVerify_missing_age_error_witness :
    (docVerify (sampleEnv (.ok noDataBody) true) [] docF none).result =
      .failure "Verification failed" ∧
    (docVerify (sampleEnv (.ok noValueBody) true) [] docF none).result =
      .ineligible "User Not Eligible, Age restricted !!!" := by
  refine ⟨?_, ?_⟩
  · exact (docVerify_missing_age_error (sampleEnv (.ok noDataBody) true) [] docF none
      "QUJD" "" noDataBody rfl rfl rfl).1 rfl
  · exact (docVerify_missing_age_error (sampleEnv (.ok noValueBody) true) [] docF none
      "QUJD" "" noValueBody rfl rfl rfl).2.1 rfl

/-- Counterexample to C7 as stated: a second file handle is supplied (the
zero-byte file at up/empty.jpg), yet the payload sent to the provider has
no documentBack key, because the truthiness guard on the empty base64
string fails. -/
theorem docVerify_emptyBack_cex :
    (docVerify (sampleEnv (.ok (okBody 19)) true) [] docF (some emptyF)).sent =
      some { document := "QUJD", documentBack := none } := by
  decide

/-- Claim C7, amended: the payload always carries the primary base64 under
the document key; the documentBack key is present with the secondary
base64 exactly when that base64 string is non-empty, so it is present for
a supplied non-empty second file, absent when no second file is supplied
(the string stays empty), and also absent when the supplied second file is
empty. -/
theorem docVerify_payload_shape (env : Env) (store : List KycRecord)
    (document : MFile) (documentBack : Option MFile) (b64 bb64 : String)
    (hread : env.readFile document.path = .ok b64)
    (hback : readBack env documentBack = .ok bb64) :
    (docVerify env store document documentBack).sent = some (buildPayload b64 bb64) ∧
    (buildPayload b64 bb64).document = b64 ∧
    ((buildPayload b64 bb64).documentBack = if bb64 ≠ "" then some bb64 else none) ∧
    (documentBack = none → bb64 = "") := by
  refine ⟨?_, rfl, rfl, ?_⟩
  · exact (docVerify_sent_unlinked env store document documentBack b64 bb64 hread hback).1
  · intro hnone
    rw [hnone] at hback
    simp only [readBack] at hback
    exact (Except.ok.inj hback).symm

/-- Witness for C7 (amended): a non-empty back file puts its base64 under
the documentBack key. -/
theorem docVerify_payload_shape_witness :
    (docVerify (sampleEnv (.ok (okBody 19)) true) [] docF (some backF)).sent =
      some (buildPayload "QUJD" "RUZH") ∧
    (buildPayload "QUJD" "RUZH").documentBack = some "RUZH" := by
  have h := docVerify_payload_shape (sampleEnv (.ok (okBody 19)) true) [] docF (some backF)
    "QUJD" "RUZH" rfl rfl
  refine ⟨h.1, ?_⟩
  rw [h.2.2.1]
  decide

/-- Counterexample to C9 as stated: a call supplying only the single
required image does not proceed — the controller entry point rejects it
with the two-files-required error before the pipeline runs. -/
theorem controller_one_file_cex :
    controllerDocVerify (sampleEnv (.ok (okBody 19)) true) [] [docF] =
      .error "Two files are required: front and back of the document." := rfl

/-- Claim C9, amended: the service-level docVerify takes the back image as
an optional parameter and proceeds normally with a single file, but the
HTTP entry point rejects every call that does not supply exactly two file
handles with the two-files-required error; when two handles are supplied
both are passed to the service and processed. -/
theorem controller_two_files_required (env : Env) (store : List KycRecord) :
    (∀ f, controllerDocVerify env store [f] =
      .error "Two files are required: front and back of the document.") ∧
    (controllerDocVerify env store [] =
      .error "Two files are required: front and back of the document.") ∧
    (∀ f1 f2, controllerDocVerify env store [f1, f2] =
      .ok (docVerify env store f1 (some f2))) ∧
    (∀ document b64, Env.readFile env (MFile.path document) = Except.ok b64 →
      (docVerify env store document none).sent = some (buildPayload b64 "")) := by
  refine ⟨fun f => rfl, rfl, fun f1 f2 => rfl, ?_⟩
  intro document b64 hread
  exact (docVerify_sent_unlinked env store document none b64 "" hread rfl).1

/-- Witness for C9 (amended): the concrete environment rejects a one-file
controller call and the service alone proceeds to the vendor call with the
single file. -/
theorem controller_two_files_required_witness :
    controllerDocVerify (sampleEnv (.ok (okBody 19)) true) [] [docF, backF] =
      .ok (docVerify (sampleEnv (.ok (okBody 19)) true) [] docF (some backF)) ∧
    (docVerify (sampleEnv (.ok (okBody 19)) true) [] docF none).sent =
      some (buildPayload "QUJD" "") := by
  have h := controller_two_files_required (sampleEnv (.ok (okBody 19)) true) []
  exact ⟨h.2.2.1 docF backF, h.2.2.2 docF "QUJD" rfl⟩

end ZkpKyc
